import Mathlib

/-!
Shallow embedding of the Resilient API Proxy (Go source: the weather proxy
service). The proxy tries providers in a fixed priority order, guarded by a
per-provider circuit breaker kept in global maps (`circuitState`,
`failureCount`, `lastFailureTime`); status messages are published to a bus.

Time is modelled as `Nat` (seconds); `time.Since(t) < 30*time.Second` becomes
`now - t < 30` with truncated subtraction. The outbound HTTP call is an oracle
parameter giving, per provider, either a transport error or a response with a
status code and a JSON-decoded body (`none` when the body does not decode,
matching `json.NewDecoder(...).Decode(&result)` whose error is discarded and
leaves `result` nil).
-/

namespace Proxy

/-- The two configured providers, in the source's priority order
(`apis := []string{"openweathermap", "wttr"}`). -/
inductive Api where
  | openweathermap
  | wttr
deriving DecidableEq, Repr

/-- Circuit state of one provider: the strings "closed" / "open" /
"half-open" of `circuitState`. -/
inductive CState where
  | closed
  | opened
  | halfOpen
deriving DecidableEq, Repr

/-- The per-provider entries of the three global maps `circuitState`,
`failureCount`, `lastFailureTime`. -/
structure ProviderState where
  circuit : CState
  failures : Nat
  lastFailureTime : Nat
deriving DecidableEq, Repr

/-- Failure threshold hard-coded as `3` in `failureCount[api] >= 3`. -/
def threshold : Nat := 3

/-- Cooldown hard-coded as `30*time.Second`. -/
def cooldown : Nat := 30

/-- A decoded JSON object body (`map[string]interface{}` flattened to
string/string pairs for the shallow embedding). -/
abbrev Payload := List (String × String)

/-- Messages published via `publishStatus` on `status_channel`. -/
inductive StatusEvent where
  | circuitOpened (api : Api)
  | failure (n : Nat) (api : Api)
  | circuitClosed (api : Api)
  | success (api : Api)
  | fallbackStub
deriving DecidableEq, Repr

/-- Outcome of `client.Get(url)` for one provider: either a transport error
(`err != nil`) or a response with its status code and the JSON-decode result
of its body (`none` when decoding fails). -/
inductive CallOutcome where
  | transportError
  | response (statusCode : Nat) (decoded : Option Payload)
deriving DecidableEq, Repr

/-- The source's failure test `err != nil || resp.StatusCode != 200`,
negated: the attempt counts as a success exactly when there was no transport
error and the status code is 200. -/
def isSuccess : CallOutcome → Bool
  | .transportError => false
  | .response statusCode _ => statusCode == 200

/-- The value the source returns on success: the decoded body (`nil` map,
i.e. `none`, when decoding failed — the decode error is ignored). -/
def successPayload : CallOutcome → Option Payload
  | .transportError => none
  | .response _ decoded => decoded

/-- The circuit-breaker gate at the top of the provider loop:
```
state := circuitState[api]
if state == "open" {
    if time.Since(lastFailureTime[api]) < 30*time.Second { continue }
    circuitState[api] = "half-open"
}
```
Returns whether the provider may be attempted, and the (possibly promoted)
state written back to the registry. -/
def isEligible (s : ProviderState) (now : Nat) : Bool × ProviderState :=
  if s.circuit = .opened then
    if now - s.lastFailureTime < cooldown then (false, s)
    else (true, { s with circuit := .halfOpen })
  else (true, s)

/-- The failure branch of the provider loop:
```
failureCount[api]++
lastFailureTime[api] = time.Now()
if failureCount[api] >= 3 {
    circuitState[api] = "open"
    publishStatus("Circuit opened for ...")
} else {
    publishStatus("Failure N for ...")
}
```
Returns the updated state and the single event published. -/
def recordFailure (api : Api) (s : ProviderState) (now : Nat) :
    ProviderState × StatusEvent :=
  let failures := s.failures + 1
  let s := { s with failures := failures, lastFailureTime := now }
  if threshold ≤ failures then
    ({ s with circuit := .opened }, .circuitOpened api)
  else
    (s, .failure failures api)

/-- The success branch's state reset:
```
failureCount[api] = 0
circuitState[api] = "closed"
```
(The two success events are appended by the fetch loop.) -/
def recordSuccess (s : ProviderState) : ProviderState :=
  { s with failures := 0, circuit := .closed }

/-- The registry: one `ProviderState` per provider, i.e. the per-key slices
of the three global maps. -/
structure Registry where
  owm : ProviderState
  wttr : ProviderState
deriving DecidableEq, Repr

def Registry.get (r : Registry) : Api → ProviderState
  | .openweathermap => r.owm
  | .wttr => r.wttr

def Registry.set (r : Registry) : Api → ProviderState → Registry
  | .openweathermap, s => { r with owm := s }
  | .wttr, s => { r with wttr := s }

/-- Initial registry: every circuit `"closed"`, count `0`, zero time
(`time.Time{}`). -/
def initRegistry : Registry :=
  ⟨⟨.closed, 0, 0⟩, ⟨.closed, 0, 0⟩⟩

/-- Result of one `getWeatherData` call: the decoded payload (possibly the
nil map) or the `"all APIs failed"` error. -/
inductive FetchResult where
  | ok (payload : Option Payload)
  | allProvidersFailed
deriving DecidableEq, Repr

/-- Everything one `getWeatherData` call produces: the updated registry, the
status events published (in order), the providers actually called (in order),
and the returned result. -/
structure FetchTrace where
  registry : Registry
  events : List StatusEvent
  calls : List Api
  result : FetchResult
deriving DecidableEq, Repr

/-- The provider loop of `getWeatherData`, over the remaining priority list.
`inactive` is the `inactiveAPIs` map, `oracle` gives each provider's HTTP
outcome, `now` the current time. -/
def tryApis (inactive : Api → Bool) (oracle : Api → CallOutcome) (now : Nat) :
    List Api → Registry → FetchTrace
  | [], reg => ⟨reg, [], [], .allProvidersFailed⟩
  | api :: rest, reg =>
    if inactive api then tryApis inactive oracle now rest reg
    else
      let checked := isEligible (reg.get api) now
      if checked.1 = false then tryApis inactive oracle now rest reg
      else
        let reg1 := reg.set api checked.2
        if isSuccess (oracle api) then
          let reg2 := reg1.set api (recordSuccess checked.2)
          ⟨reg2, [.circuitClosed api, .success api], [api],
            .ok (successPayload (oracle api))⟩
        else
          let recorded := recordFailure api checked.2 now
          let t := tryApis inactive oracle now rest (reg1.set api recorded.1)
          ⟨t.registry, recorded.2 :: t.events, api :: t.calls, t.result⟩

/-- `getWeatherData`: try the providers in priority order. -/
def getWeatherData (inactive : Api → Bool) (oracle : Api → CallOutcome)
    (now : Nat) (reg : Registry) : FetchTrace :=
  tryApis inactive oracle now [.openweathermap, .wttr] reg

/-- The fixed stub body written by `weatherHandler` when `getWeatherData`
errors. -/
def stubBody : Payload :=
  [("weather", "unavailable"),
   ("note", "all providers failed, returning stubbed response")]

/-- What `weatherHandler` replies with. -/
inductive Reply where
  | badRequest (msg : String)
  | okJson (body : Payload)
  | okJsonNull
deriving DecidableEq, Repr

/-- `weatherHandler`: reject a missing `city`, otherwise fetch and either
encode the payload or the fixed stub (publishing the fallback event). -/
def weatherHandler (city : String) (inactive : Api → Bool)
    (oracle : Api → CallOutcome) (now : Nat) (reg : Registry) :
    Reply × List StatusEvent × Registry :=
  if city = "" then (.badRequest "Missing ?city= parameter", [], reg)
  else
    let t := getWeatherData inactive oracle now reg
    match t.result with
    | .allProvidersFailed =>
        (.okJson stubBody, t.events ++ [.fallbackStub], t.registry)
    | .ok none => (.okJsonNull, t.events, t.registry)
    | .ok (some body) => (.okJson body, t.events, t.registry)

/-- States of one provider's registry entry reachable in the running proxy:
from the initial entry, by an eligibility check (which may write the
half-open promotion), by a recorded failure of an attempt (attempts happen
only when the stored state is not `open`: `closed`, or `half-open` after
promotion), or by a recorded success of an attempt. -/
inductive Reachable : ProviderState → Prop where
  | init : Reachable ⟨.closed, 0, 0⟩
  | check (s : ProviderState) (now : Nat) :
      Reachable s → Reachable (isEligible s now).2
  | fail (api : Api) (s : ProviderState) (now : Nat) :
      Reachable s → s.circuit ≠ .opened →
      Reachable (recordFailure api s now).1
  | succeed (s : ProviderState) :
      Reachable s → s.circuit ≠ .opened → Reachable (recordSuccess s)

/-- Core invariant of the circuit breaker: a reachable entry whose stored
state is `open` or `half-open` carries a failure count at or above the
threshold (the count is only reset by `recordSuccess`, which also closes the
circuit). -/
theorem breaker_count_inv {s : ProviderState} (h : Reachable s) :
    (s.circuit = .opened ∨ s.circuit = .halfOpen) → threshold ≤ s.failures := by
  induction h with
  | init => decide
  | check s now hs ih =>
    obtain ⟨c, f, l⟩ := s
    cases c with
    | closed => simp [isEligible]
    | halfOpen => simpa [isEligible] using ih
    | opened =>
      by_cases h2 : now - l < cooldown <;> simpa [isEligible, h2] using ih
  | fail api s now hs hne ih =>
    obtain ⟨c, f, l⟩ := s
    by_cases h3 : threshold ≤ f + 1
    · simp [recordFailure, h3]
    · simp only [recordFailure, h3, if_neg, if_false]
      intro hc
      rcases hc with hc | hc
      · exact absurd hc hne
      · exact absurd (Nat.le_succ_of_le (ih (Or.inr hc))) h3
  | succeed s hs hne ih => simp [recordSuccess]

/-- One recorded failure from the initial entry. -/
theorem reachable_closed1 : Reachable ⟨.closed, 1, 0⟩ := by
  have h := Reachable.fail .openweathermap ⟨.closed, 0, 0⟩ 0 .init (by decide)
  have e : (recordFailure .openweathermap ⟨.closed, 0, 0⟩ 0).1 = ⟨.closed, 1, 0⟩ := by
    decide
  exact e ▸ h

/-- Two recorded failures from the initial entry. -/
theorem reachable_closed2 : Reachable ⟨.closed, 2, 0⟩ := by
  have h := Reachable.fail .openweathermap ⟨.closed, 1, 0⟩ 0 reachable_closed1 (by decide)
  have e : (recordFailure .openweathermap ⟨.closed, 1, 0⟩ 0).1 = ⟨.closed, 2, 0⟩ := by
    decide
  exact e ▸ h

/-- Three consecutive failures open the circuit: the open entry is
reachable. -/
theorem reachable_open3 : Reachable ⟨.opened, 3, 0⟩ := by
  have h := Reachable.fail .openweathermap ⟨.closed, 2, 0⟩ 0 reachable_closed2 (by decide)
  have e : (recordFailure .openweathermap ⟨.closed, 2, 0⟩ 0).1 = ⟨.opened, 3, 0⟩ := by
    decide
  exact e ▸ h

/-- An eligibility check after the cooldown promotes the open entry: the
half-open entry is reachable. -/
theorem reachable_halfOpen3 : Reachable ⟨.halfOpen, 3, 0⟩ := by
  have h := Reachable.check ⟨.opened, 3, 0⟩ 30 reachable_open3
  have e : (isEligible ⟨.opened, 3, 0⟩ 30).2 = ⟨.halfOpen, 3, 0⟩ := by decide
  exact e ▸ h

/-- Claim C1: starting from a closed entry with failure count 0, exactly
three consecutive recorded failures (no intervening success) leave the
circuit `open` with count equal to the threshold, and every eligibility
check performed before the cooldown has elapsed since the last failure
returns ineligible and leaves the entry unchanged (still `open`). -/
theorem three_failures_open_and_block (api : Api) (s : ProviderState)
    (hc : s.circuit = .closed) (hf : s.failures = 0) (t1 t2 t3 now : Nat)
    (hnow : now - t3 < cooldown) :
    (recordFailure api (recordFailure api (recordFailure api s t1).1 t2).1
        t3).1.circuit = .opened ∧
    (recordFailure api (recordFailure api (recordFailure api s t1).1 t2).1
        t3).1.failures = threshold ∧
    isEligible (recordFailure api (recordFailure api (recordFailure api s t1).1
        t2).1 t3).1 now =
      (false, (recordFailure api (recordFailure api (recordFailure api s t1).1
        t2).1 t3).1) := by
  obtain ⟨c, f, l⟩ := s
  simp only [ProviderState.circuit] at hc
  simp only [ProviderState.failures] at hf
  subst hc; subst hf
  simp [recordFailure, threshold, isEligible, cooldown, hnow]
  exact hnow

/-- Concrete run of claim C1's theorem. -/
theorem three_failures_open_and_block_check :
    (recordFailure .wttr (recordFailure .wttr (recordFailure .wttr
        ⟨.closed, 0, 0⟩ 1).1 2).1 3).1.circuit = .opened ∧
    (recordFailure .wttr (recordFailure .wttr (recordFailure .wttr
        ⟨.closed, 0, 0⟩ 1).1 2).1 3).1.failures = threshold ∧
    isEligible (recordFailure .wttr (recordFailure .wttr (recordFailure .wttr
        ⟨.closed, 0, 0⟩ 1).1 2).1 3).1 20 =
      (false, (recordFailure .wttr (recordFailure .wttr (recordFailure .wttr
        ⟨.closed, 0, 0⟩ 1).1 2).1 3).1) :=
  three_failures_open_and_block .wttr ⟨.closed, 0, 0⟩ rfl rfl 1 2 3 20 (by decide)

/-- Claim C4: `recordSuccess` resets the failure count to 0 and sets the
state to `closed`, whatever the prior state, count and last-failure time
were. -/
theorem recordSuccess_resets (s : ProviderState) :
    (recordSuccess s).failures = 0 ∧ (recordSuccess s).circuit = .closed ∧
    (recordSuccess s).lastFailureTime = s.lastFailureTime :=
  ⟨rfl, rfl, rfl⟩

/-- Claim C2: for a reachable `open` entry, a check strictly before
`lastFailureTime + cooldown` returns ineligible and mutates nothing, while a
check at or after that instant promotes the entry to `half-open` and returns
eligible; the promoted entry stays eligible until its attempt's outcome
resolves it — back to `closed` on success, back to `open` on failure. -/
theorem open_cooldown_gate (api : Api) (s : ProviderState) (hr : Reachable s)
    (hc : s.circuit = .opened) (now t : Nat) :
    (now - s.lastFailureTime < cooldown → isEligible s now = (false, s)) ∧
    (cooldown ≤ now - s.lastFailureTime →
      isEligible s now = (true, { s with circuit := .halfOpen }) ∧
      isEligible { s with circuit := .halfOpen } t
        = (true, { s with circuit := .halfOpen }) ∧
      (recordSuccess { s with circuit := .halfOpen }).circuit = .closed ∧
      (recordFailure api { s with circuit := .halfOpen } t).1.circuit
        = .opened) := by
  have hinv := breaker_count_inv hr (Or.inl hc)
  refine ⟨fun h => ?_, fun h => ?_⟩
  · simp [isEligible, hc, h]
  · have hnn : ¬(now - s.lastFailureTime < cooldown) := Nat.not_lt.mpr h
    have h3 : threshold ≤ s.failures + 1 := Nat.le_succ_of_le hinv
    exact ⟨by simp [isEligible, hc, hnn], by simp [isEligible], rfl,
      by simp [recordFailure, h3]⟩

/-- Concrete run of claim C2's theorem. -/
theorem open_cooldown_gate_check :
    isEligible ⟨.opened, 3, 0⟩ 29 = (false, ⟨.opened, 3, 0⟩) ∧
    isEligible ⟨.opened, 3, 0⟩ 30 = (true, ⟨.halfOpen, 3, 0⟩) ∧
    isEligible ⟨.halfOpen, 3, 0⟩ 31 = (true, ⟨.halfOpen, 3, 0⟩) ∧
    (recordSuccess ⟨.halfOpen, 3, 0⟩).circuit = .closed ∧
    (recordFailure .openweathermap ⟨.halfOpen, 3, 0⟩ 31).1.circuit = .opened := by
  have h29 := open_cooldown_gate .openweathermap ⟨.opened, 3, 0⟩
    reachable_open3 rfl 29 31
  have h30 := open_cooldown_gate .openweathermap ⟨.opened, 3, 0⟩
    reachable_open3 rfl 30 31
  exact ⟨h29.1 (by decide), (h30.2 (by decide)).1, (h30.2 (by decide)).2.1,
    (h30.2 (by decide)).2.2.1, (h30.2 (by decide)).2.2.2⟩

/-- Claim C3: in every reachable half-open entry, one recorded failure
re-opens the circuit immediately. -/
theorem halfOpen_failure_reopens (api : Api) (s : ProviderState)
    (hr : Reachable s) (hc : s.circuit = .halfOpen) (now : Nat) :
    (recordFailure api s now).1.circuit = .opened := by
  have hinv := breaker_count_inv hr (Or.inr hc)
  have h3 : threshold ≤ s.failures + 1 := Nat.le_succ_of_le hinv
  simp [recordFailure, h3]

/-- Concrete run of claim C3's theorem. -/
theorem halfOpen_failure_reopens_check :
    (recordFailure .wttr ⟨.halfOpen, 3, 0⟩ 30).1.circuit = .opened :=
  halfOpen_failure_reopens .wttr ⟨.halfOpen, 3, 0⟩ reachable_halfOpen3 rfl 30

/-- Claim C9: in every reachable entry, state `open` or `half-open` implies
the failure count is at least the threshold; an eligibility check (including
the open-to-half-open promotion) never changes the count, a recorded failure
increments it by exactly one, and only `recordSuccess` resets it to 0. -/
theorem open_halfOpen_count_inv (api : Api) (s : ProviderState)
    (hr : Reachable s) (now : Nat) :
    ((s.circuit = .opened ∨ s.circuit = .halfOpen) → threshold ≤ s.failures) ∧
    (isEligible s now).2.failures = s.failures ∧
    (recordFailure api s now).1.failures = s.failures + 1 ∧
    (recordSuccess s).failures = 0 := by
  refine ⟨breaker_count_inv hr, ?_, ?_, rfl⟩
  · by_cases h1 : s.circuit = .opened
    · by_cases h2 : now - s.lastFailureTime < cooldown <;>
        simp [isEligible, h1, h2]
    · simp [isEligible, h1]
  · by_cases h3 : threshold ≤ s.failures + 1 <;> simp [recordFailure, h3]

/-- Concrete run of claim C9's theorem. -/
theorem open_halfOpen_count_inv_check :
    (((⟨.halfOpen, 3, 0⟩ : ProviderState).circuit = .opened ∨
        (⟨.halfOpen, 3, 0⟩ : ProviderState).circuit = .halfOpen) →
      threshold ≤ (⟨.halfOpen, 3, 0⟩ : ProviderState).failures) ∧
    (isEligible ⟨.halfOpen, 3, 0⟩ 5).2.failures
      = (⟨.halfOpen, 3, 0⟩ : ProviderState).failures ∧
    (recordFailure .openweathermap ⟨.halfOpen, 3, 0⟩ 5).1.failures
      = (⟨.halfOpen, 3, 0⟩ : ProviderState).failures + 1 ∧
    (recordSuccess ⟨.halfOpen, 3, 0⟩).failures = 0 :=
  open_halfOpen_count_inv .openweathermap ⟨.halfOpen, 3, 0⟩ reachable_halfOpen3 5

/-- Claim C7 counterexample: the half-open entry with count 3 is reachable;
its count is already at the threshold, so a further failure does not "just
cross" the threshold (the resulting count is 4, not 3) — yet the code
publishes the circuit-opened event again for it. Hence the circuit-opened
event is not published only on the closed-to-open crossing. -/
theorem circuitOpened_republished :
    Reachable ⟨.halfOpen, 3, 0⟩ ∧
    threshold ≤ (⟨.halfOpen, 3, 0⟩ : ProviderState).failures ∧
    (recordFailure .openweathermap ⟨.halfOpen, 3, 0⟩ 30).1.failures ≠ threshold ∧
    (recordFailure .openweathermap ⟨.halfOpen, 3, 0⟩ 30).2
      = .circuitOpened .openweathermap :=
  ⟨reachable_halfOpen3, by decide, by decide, by decide⟩

/-- Claim C7 amended: every recorded failure publishes exactly one event —
the failure-count event (carrying the new count) exactly when the resulting
count is below the threshold, and the circuit-opened event exactly when the
resulting count is at or above the threshold; whenever the circuit-opened
event is published the entry's state is set to `open`. (The event is thus
republished on every half-open failure that re-opens the circuit, not only
on the first closed-to-open crossing.) -/
theorem recordFailure_event_spec (api : Api) (s : ProviderState) (now : Nat) :
    ((recordFailure api s now).2 = .circuitOpened api ↔
      threshold ≤ s.failures + 1) ∧
    ((recordFailure api s now).2 = .failure (s.failures + 1) api ↔
      s.failures + 1 < threshold) ∧
    ((recordFailure api s now).2 = .circuitOpened api →
      (recordFailure api s now).1.circuit = .opened) := by
  by_cases h3 : threshold ≤ s.failures + 1
  · simp [recordFailure, h3, Nat.not_lt.mpr h3]
  · simp [recordFailure, h3, Nat.lt_of_not_le h3]

/-- Unfolding: a disabled provider is skipped without consulting anything. -/
theorem tryApis_cons_inactive (inactive : Api → Bool) (oracle : Api → CallOutcome)
    (now : Nat) (api : Api) (rest : List Api) (reg : Registry)
    (h1 : inactive api = true) :
    tryApis inactive oracle now (api :: rest) reg
      = tryApis inactive oracle now rest reg := by
  simp [tryApis, h1]

/-- Unfolding: an ineligible provider is skipped and the registry is left
unchanged. -/
theorem tryApis_cons_ineligible (inactive : Api → Bool)
    (oracle : Api → CallOutcome) (now : Nat) (api : Api) (rest : List Api)
    (reg : Registry) (h1 : inactive api = false)
    (h2 : (isEligible (reg.get api) now).1 = false) :
    tryApis inactive oracle now (api :: rest) reg
      = tryApis inactive oracle now rest reg := by
  simp [tryApis, h1, h2]

/-- Unfolding: an eligible provider whose call succeeds ends the loop. -/
theorem tryApis_cons_success (inactive : Api → Bool)
    (oracle : Api → CallOutcome) (now : Nat) (api : Api) (rest : List Api)
    (reg : Registry) (h1 : inactive api = false)
    (h2 : (isEligible (reg.get api) now).1 = true)
    (h3 : isSuccess (oracle api) = true) :
    tryApis inactive oracle now (api :: rest) reg
      = ⟨(reg.set api (isEligible (reg.get api) now).2).set api
            (recordSuccess (isEligible (reg.get api) now).2),
          [.circuitClosed api, .success api], [api],
          .ok (successPayload (oracle api))⟩ := by
  simp [tryApis, h1, h2, h3]

/-- Unfolding: an eligible provider whose call fails records the failure and
the loop continues with the next provider. -/
theorem tryApis_cons_failure (inactive : Api → Bool)
    (oracle : Api → CallOutcome) (now : Nat) (api : Api) (rest : List Api)
    (reg : Registry) (h1 : inactive api = false)
    (h2 : (isEligible (reg.get api) now).1 = true)
    (h3 : isSuccess (oracle api) = false) :
    tryApis inactive oracle now (api :: rest) reg
      = ⟨(tryApis inactive oracle now rest
            ((reg.set api (isEligible (reg.get api) now).2).set api
              (recordFailure api (isEligible (reg.get api) now).2 now).1)).registry,
          (recordFailure api (isEligible (reg.get api) now).2 now).2
            :: (tryApis inactive oracle now rest
                ((reg.set api (isEligible (reg.get api) now).2).set api
                  (recordFailure api (isEligible (reg.get api) now).2 now).1)).events,
          api :: (tryApis inactive oracle now rest
            ((reg.set api (isEligible (reg.get api) now).2).set api
              (recordFailure api (isEligible (reg.get api) now).2 now).1)).calls,
          (tryApis inactive oracle now rest
            ((reg.set api (isEligible (reg.get api) now).2).set api
              (recordFailure api (isEligible (reg.get api) now).2 now).1)).result⟩ := by
  simp [tryApis, h1, h2, h3]

/-- The provider loop stops at the first successful provider: if it returns
a payload, the call list is a prefix of failing providers followed by the
one successful provider, the payload is that provider's decoded body, and
the calls form an in-order sublist of the remaining priority list (so no
provider after the successful one is called). -/
theorem tryApis_first_success (inactive : Api → Bool)
    (oracle : Api → CallOutcome) (now : Nat) :
    ∀ (l : List Api) (reg : Registry) (p : Option Payload),
      (tryApis inactive oracle now l reg).result = .ok p →
      ∃ pre api,
        (tryApis inactive oracle now l reg).calls = pre ++ [api] ∧
        isSuccess (oracle api) = true ∧
        successPayload (oracle api) = p ∧
        (∀ a ∈ pre, isSuccess (oracle a) = false) ∧
        List.Sublist ((tryApis inactive oracle now l reg).calls) l := by
  intro l
  induction l with
  | nil => intro reg p h; simp [tryApis] at h
  | cons api rest ih =>
    intro reg p h
    by_cases h1 : inactive api = true
    · rw [tryApis_cons_inactive inactive oracle now api rest reg h1] at h ⊢
      obtain ⟨pre, a, hc, hs, hp, hpre, hsub⟩ := ih reg p h
      exact ⟨pre, a, hc, hs, hp, hpre, List.Sublist.cons api hsub⟩
    · have h1' : inactive api = false := by simpa using h1
      by_cases h2 : (isEligible (reg.get api) now).1 = false
      · rw [tryApis_cons_ineligible inactive oracle now api rest reg h1' h2]
          at h ⊢
        obtain ⟨pre, a, hc, hs, hp, hpre, hsub⟩ := ih reg p h
        exact ⟨pre, a, hc, hs, hp, hpre, List.Sublist.cons api hsub⟩
      · have h2' : (isEligible (reg.get api) now).1 = true := by simpa using h2
        by_cases h3 : isSuccess (oracle api) = true
        · rw [tryApis_cons_success inactive oracle now api rest reg h1' h2' h3]
            at h ⊢
          simp only [FetchResult.ok.injEq] at h
          exact ⟨[], api, by simp, h3, h, by simp,
            List.Sublist.cons₂ api (List.nil_sublist rest)⟩
        · have h3' : isSuccess (oracle api) = false := by simpa using h3
          rw [tryApis_cons_failure inactive oracle now api rest reg h1' h2' h3']
            at h ⊢
          dsimp only at h ⊢
          obtain ⟨pre, a, hc, hs, hp, hpre, hsub⟩ := ih _ p h
          refine ⟨api :: pre, a, by simp [hc], hs, hp, ?_,
            List.Sublist.cons₂ api hsub⟩
          intro x hx
          rcases List.mem_cons.mp hx with rfl | hx
          · exact h3'
          · exact hpre x hx

/-- Claim C5: when `getWeatherData` returns a payload, the providers called
are some failing ones followed by exactly one successful provider (in
priority order, with nothing called after it), and the returned payload is
that provider's decoded body, unchanged. -/
theorem fetch_first_success_wins (inactive : Api → Bool)
    (oracle : Api → CallOutcome) (now : Nat) (reg : Registry)
    (p : Option Payload)
    (h : (getWeatherData inactive oracle now reg).result = .ok p) :
    ∃ pre api,
      (getWeatherData inactive oracle now reg).calls = pre ++ [api] ∧
      isSuccess (oracle api) = true ∧
      successPayload (oracle api) = p ∧
      (∀ a ∈ pre, isSuccess (oracle a) = false) ∧
      List.Sublist (getWeatherData inactive oracle now reg).calls
        [Api.openweathermap, Api.wttr] :=
  tryApis_first_success inactive oracle now [Api.openweathermap, Api.wttr]
    reg p h

/-- A fixture: every provider enabled. -/
def allEnabled : Api → Bool := fun _ => false

/-- A fixture oracle: the first provider's transport fails, the second
responds 200 with a decodable body. -/
def testOracle : Api → CallOutcome
  | .openweathermap => .transportError
  | .wttr => .response 200 (some [("temp", "20")])

/-- Concrete run of claim C5's theorem. -/
theorem fetch_first_success_wins_check :
    ∃ pre api,
      (getWeatherData allEnabled testOracle 0 initRegistry).calls
        = pre ++ [api] ∧
      isSuccess (testOracle api) = true ∧
      successPayload (testOracle api) = some [("temp", "20")] ∧
      (∀ a ∈ pre, isSuccess (testOracle a) = false) ∧
      List.Sublist (getWeatherData allEnabled testOracle 0 initRegistry).calls
        [Api.openweathermap, Api.wttr] :=
  fetch_first_success_wins allEnabled testOracle 0 initRegistry
    (some [("temp", "20")]) (by decide)

/-- Quantification over the two configured providers. -/
theorem api_forall_iff {P : Api → Prop} :
    (∀ a : Api, P a) ↔ P .openweathermap ∧ P .wttr :=
  ⟨fun h => ⟨h _, h _⟩, fun h a => by
    cases a with
    | openweathermap => exact h.1
    | wttr => exact h.2⟩

/-- Claim C6: `getWeatherData` returns the all-APIs-failed error exactly
when every enabled provider is ineligible or fails its call; when every
provider is administratively disabled it returns that error having called
no provider at all; and whenever it returns that error, `weatherHandler`
replies with the fixed stub JSON body. -/
theorem fetch_allProvidersFailed_iff (inactive : Api → Bool)
    (oracle : Api → CallOutcome) (now : Nat) (reg : Registry) (city : String)
    (hcity : city ≠ "") :
    ((getWeatherData inactive oracle now reg).result = .allProvidersFailed ↔
      ∀ api : Api, inactive api = true ∨
        (isEligible (reg.get api) now).1 = false ∨
        isSuccess (oracle api) = false) ∧
    ((∀ api : Api, inactive api = true) →
      (getWeatherData inactive oracle now reg).result = .allProvidersFailed ∧
      (getWeatherData inactive oracle now reg).calls = []) ∧
    ((getWeatherData inactive oracle now reg).result = .allProvidersFailed →
      (weatherHandler city inactive oracle now reg).1 = .okJson stubBody) := by
  refine ⟨?_, ?_, ?_⟩
  · rw [api_forall_iff]
    unfold getWeatherData
    cases h1 : inactive Api.openweathermap <;>
      cases h2 : inactive Api.wttr <;>
      cases e1 : (isEligible (reg.get Api.openweathermap) now).1 <;>
      cases e2 : (isEligible (reg.get Api.wttr) now).1 <;>
      cases s1 : isSuccess (oracle Api.openweathermap) <;>
      cases s2 : isSuccess (oracle Api.wttr) <;>
      simp_all [tryApis, Registry.get, Registry.set]
  · intro h
    have h1 := h Api.openweathermap
    have h2 := h Api.wttr
    constructor <;> simp [getWeatherData, tryApis, h1, h2]
  · intro h
    simp [weatherHandler, hcity, h]

/-- Concrete run of claim C6's theorem: with both providers disabled the
fetch fails with zero provider calls and the handler serves the stub. -/
theorem fetch_allProvidersFailed_iff_check :
    (getWeatherData (fun _ => true) (fun _ => .transportError) 0
        initRegistry).result = .allProvidersFailed ∧
    (getWeatherData (fun _ => true) (fun _ => .transportError) 0
        initRegistry).calls = [] ∧
    (weatherHandler "London" (fun _ => true) (fun _ => .transportError) 0
        initRegistry).1 = .okJson stubBody := by
  have h := fetch_allProvidersFailed_iff (fun _ => true)
    (fun _ => .transportError) 0 initRegistry "London" (by decide)
  exact ⟨(h.2.1 (fun _ => rfl)).1, (h.2.1 (fun _ => rfl)).2,
    h.2.2 (h.2.1 (fun _ => rfl)).1⟩

/-- Claim C10: an enabled, eligible provider that answers HTTP 200 with a
body that fails to decode is still treated as a success: the fetch ends at
that provider, returns the nil payload with no error, resets its failure
count to 0, closes its circuit, and publishes the two success events. -/
theorem status200_undecodable_is_success (inactive : Api → Bool)
    (oracle : Api → CallOutcome) (now : Nat) (reg : Registry) (api : Api)
    (rest : List Api) (h1 : inactive api = false)
    (h2 : (isEligible (reg.get api) now).1 = true)
    (h3 : oracle api = .response 200 none) :
    (tryApis inactive oracle now (api :: rest) reg).result = .ok none ∧
    ((tryApis inactive oracle now (api :: rest) reg).registry.get api).failures
      = 0 ∧
    ((tryApis inactive oracle now (api :: rest) reg).registry.get api).circuit
      = .closed ∧
    (tryApis inactive oracle now (api :: rest) reg).events
      = [.circuitClosed api, .success api] ∧
    (tryApis inactive oracle now (api :: rest) reg).calls = [api] := by
  have hs : isSuccess (oracle api) = true := by rw [h3]; rfl
  rw [tryApis_cons_success inactive oracle now api rest reg h1 h2 hs]
  refine ⟨by rw [h3]; rfl, ?_, ?_, rfl, rfl⟩ <;>
    cases api <;> simp [Registry.get, Registry.set, recordSuccess]

/-- Concrete run of claim C10's theorem. -/
theorem status200_undecodable_is_success_check :
    (tryApis allEnabled (fun _ => .response 200 none) 0
        [.openweathermap, .wttr] initRegistry).result = .ok none ∧
    ((tryApis allEnabled (fun _ => .response 200 none) 0
        [.openweathermap, .wttr] initRegistry).registry.get
          .openweathermap).failures = 0 ∧
    ((tryApis allEnabled (fun _ => .response 200 none) 0
        [.openweathermap, .wttr] initRegistry).registry.get
          .openweathermap).circuit = .closed ∧
    (tryApis allEnabled (fun _ => .response 200 none) 0
        [.openweathermap, .wttr] initRegistry).events
      = [.circuitClosed .openweathermap, .success .openweathermap] ∧
    (tryApis allEnabled (fun _ => .response 200 none) 0
        [.openweathermap, .wttr] initRegistry).calls = [.openweathermap] :=
  status200_undecodable_is_success allEnabled (fun _ => .response 200 none) 0
    initRegistry .openweathermap [.wttr] rfl (by decide) rfl

end Proxy
